import Mathlib

/-!
Verification development for the user-secret management router
(`registerUserSecretManagementRouter`) and the request-validation
middleware (`validateRequest.ts`).

The router file is embedded directly: zod body schemas become boolean
checks on typed body records, the handlers become state-passing
functions on a `ServerState`.  The service functions the router calls
(`createUserSecret`, `updateUserSecret`, `deleteUserSecretById`) are not
part of the shown sources; they are modelled from the specification, and
each such definition carries a doc comment saying so.  JavaScript
`undefined` for an optional field is `Option.none`; `new Date(s)` is
modelled as an opaque constructor applied to the string; `new Date()`
reads a logical clock carried in the state.
-/

/-- Model of a JavaScript `Date` value: either parsed from a string
(`new Date(s)`) or the current instant (`new Date()`), identified by a
logical clock tick. -/
inductive JsDate where
  | parse (s : String)
  | now (tick : Nat)
deriving DecidableEq

/-- The stored entity shape, as built by the POST /create handler
(`newSecret` object literal) together with the `deletedAt` soft-delete
marker from `UserSecretsSchema`. -/
structure UserSecret where
  id : String
  user_id : String
  organization_id : String
  type : String
  username : Option String
  password : Option String
  card_number : Option String
  expiry_date : Option JsDate
  cvv : Option String
  title : Option String
  content : Option String
  createdAt : JsDate
  updatedAt : JsDate
  deletedAt : Option JsDate
deriving DecidableEq

/-- The actor context attached by `verifyAuth` (`req.permission`). -/
structure ActorContext where
  type : String
  id : String
  authMethod : String
  orgId : String
deriving DecidableEq

/-- Server-side state: the stored secrets plus a counter feeding
`uuidv4()` and the logical clock feeding `new Date()`. -/
structure ServerState where
  secrets : List UserSecret
  nextUuid : Nat
  clock : Nat
deriving DecidableEq

/-- Fresh-id generation standing in for `uuidv4()`. -/
def genUuid (n : Nat) : String := "uuid-" ++ toString n

/-- Embeds the TS idiom `x || null` on an optional string field:
`undefined` and the empty string both coalesce to null. -/
def strCoalesce : Option String → Option String
  | none => none
  | some s => if s = "" then none else some s

/-- Embeds `x ? new Date(x) : null` (and, in the update handler,
`x ? new Date(x) : undefined`): absent or empty yields nothing,
a non-empty string is parsed. -/
def dateCoalesce : Option String → Option JsDate
  | none => none
  | some s => if s = "" then none else some (JsDate.parse s)

/-- Request body of POST /create as typed by its zod schema
(`credentialType` is kept as the raw string so that the enum check is
explicit; `organizationId` and `userId` are required by the schema). -/
structure CreateBody where
  credentialType : String
  username : Option String
  password : Option String
  cardNumber : Option String
  expiryDate : Option String
  cvv : Option String
  title : Option String
  content : Option String
  organizationId : String
  userId : String
deriving DecidableEq

/-- The zod enum check of POST /create:
`z.enum(["WEB_LOGIN", "CREDIT_CARD", "SECURE_NOTE"])`. -/
def credTypeOk (t : String) : Bool :=
  t == "WEB_LOGIN" || t == "CREDIT_CARD" || t == "SECURE_NOTE"

/-- The schema gate of POST /create: the body is well-typed, so the only
rejectable part is the `credentialType` enum. -/
def createBodyCheck (b : CreateBody) : Bool :=
  credTypeOk b.credentialType

/-- Embeds the `newSecret` object literal of the POST /create handler:
every optional string field is stored via `|| null`, `expiryDate` via
`? new Date(..) : null`, ids and type copied from the body, timestamps
from `new Date()`.  The handler sets no `deletedAt`; the persisted row
starts with a null marker (spec: `deletedAt = null` at creation). -/
def newSecret (st : ServerState) (b : CreateBody) : UserSecret :=
  { id := genUuid st.nextUuid
    user_id := b.userId
    organization_id := b.organizationId
    type := b.credentialType
    username := strCoalesce b.username
    password := strCoalesce b.password
    card_number := strCoalesce b.cardNumber
    expiry_date := dateCoalesce b.expiryDate
    cvv := strCoalesce b.cvv
    title := strCoalesce b.title
    content := strCoalesce b.content
    createdAt := JsDate.now st.clock
    updatedAt := JsDate.now st.clock
    deletedAt := none }

/-- Modelled from the spec: `createUserSecret({ secretData })` persists
one new row in the repository and touches nothing else. -/
def createUserSecret (st : ServerState) (s : UserSecret) : ServerState :=
  { st with secrets := st.secrets ++ [s] }

/-- Outcome of POST /create: schema rejection (400) or the handler's
200 payload `{ message, secretId? }` (`secretId` is `z.number()` in the
response schema, hence `Option Nat`). -/
inductive CreateResult where
  | badRequest
  | ok (message : String) (secretId : Option Nat)
deriving DecidableEq

/-- Embeds the POST /create route: schema check, then the handler, which
builds `newSecret`, persists it, and replies with only a message. -/
def createRoute (st : ServerState) (b : CreateBody) :
    CreateResult × ServerState :=
  if createBodyCheck b then
    let st' := createUserSecret st (newSecret st b)
    (CreateResult.ok "Credential created successfully" none,
      { st' with nextUuid := st.nextUuid + 1, clock := st.clock + 1 })
  else
    (CreateResult.badRequest, st)

/-- Request body of PUT /update/:id as typed by its zod schema.  All
credential fields are optional; `organizationId` and `userId` are
declared `z.string()` (required), so they are carried as options here to
let the schema check observe their absence. -/
structure UpdateBody where
  credentialType : Option String
  username : Option String
  password : Option String
  cardNumber : Option String
  expiryDate : Option String
  cvv : Option String
  title : Option String
  content : Option String
  organizationId : Option String
  userId : Option String
deriving DecidableEq

/-- The schema gate of PUT /update/:id: `organizationId` and `userId`
must be present, and `credentialType`, when present, must be in the
enum. -/
def updateBodyCheck (b : UpdateBody) : Bool :=
  (match b.credentialType with
    | none => true
    | some t => credTypeOk t)
  && b.organizationId.isSome && b.userId.isSome

/-- The `data` object built by the PUT /update/:id handler.  `none`
stands for a JavaScript `undefined` field (omitted from the write).
`req.body.expiry_date` in the source is not in the schema, hence
`undefined`, so an empty `expiryDate` leaves `expiry_date` undefined. -/
structure UpdateData where
  type : Option String
  username : Option String
  password : Option String
  card_number : Option String
  expiry_date : Option JsDate
  cvv : Option String
  title : Option String
  content : Option String
  updatedAt : JsDate
deriving DecidableEq

/-- A defined (non-undefined) incoming field overwrites the stored one;
an undefined field leaves it alone. -/
def overwrite (incoming stored : Option α) : Option α :=
  match incoming with
  | some v => some v
  | none => stored

/-- Modelled from the spec: the credential normalizer's clearing step —
given the active type tag, fields irrelevant to that tag are made
explicitly null (username/password belong to WEB_LOGIN; cardNumber,
expiryDate, cvv to CREDIT_CARD; title, content to SECURE_NOTE).  Ids,
ownership keys and timestamps are not payload fields and are left
alone. -/
def renormalize (t : String) (s : UserSecret) : UserSecret :=
  { s with
    username := if t == "WEB_LOGIN" then s.username else none
    password := if t == "WEB_LOGIN" then s.password else none
    card_number := if t == "CREDIT_CARD" then s.card_number else none
    expiry_date := if t == "CREDIT_CARD" then s.expiry_date else none
    cvv := if t == "CREDIT_CARD" then s.cvv else none
    title := if t == "SECURE_NOTE" then s.title else none
    content := if t == "SECURE_NOTE" then s.content else none }

/-- Writes the defined fields of an update `data` object onto a stored
secret, leaving undefined fields (and the id/ownership columns, which
the `data` object has no keys for) untouched. -/
def applyUpdateData (s : UserSecret) (d : UpdateData) : UserSecret :=
  { s with
    type := d.type.getD s.type
    username := overwrite d.username s.username
    password := overwrite d.password s.password
    card_number := overwrite d.card_number s.card_number
    expiry_date := overwrite d.expiry_date s.expiry_date
    cvv := overwrite d.cvv s.cvv
    title := overwrite d.title s.title
    content := overwrite d.content s.content
    updatedAt := d.updatedAt }

/-- Error a service call can surface to the route layer. -/
inductive ServiceError where
  | notFoundError
deriving DecidableEq

/-- Modelled from the spec: the per-secret effect of an update — the
partial write of the defined fields, followed, when a type-change
accompanies the update (a defined type differing from the stored one),
by re-applying the normalizer so stale fields from the previous type
are cleared. -/
def applyUpdate (s : UserSecret) (d : UpdateData) : UserSecret :=
  match d.type with
  | none => applyUpdateData s d
  | some t =>
      if t == s.type then applyUpdateData s d
      else renormalize t (applyUpdateData s d)

/-- Modelled from the spec: `updateUserSecret({ id, updateData })` —
absent from the shown sources.  Per the spec it writes only the defined
fields of the partial payload onto the active secret with the given id,
re-applies the normalizer when the update changes the credential type
(clearing stale fields of the previous type), and fails with
`NotFoundError` when no such active secret exists.  The router hands it
only the id and the data — no actor organization — so the organization
scope the spec asks for cannot be consulted here. -/
def updateUserSecret (st : ServerState) (id : String) (d : UpdateData) :
    Except ServiceError ServerState :=
  if st.secrets.any (fun s => s.id == id && s.deletedAt.isNone) then
    Except.ok { st with secrets := st.secrets.map (fun s =>
      if s.id == id && s.deletedAt.isNone then applyUpdate s d else s) }
  else
    Except.error ServiceError.notFoundError

/-- Outcome of PUT /update/:id: schema rejection (400), a propagated
`NotFoundError` (404), or the handler's 200 payload
`{ message, updatedSecretId }`. -/
inductive UpdateResult where
  | badRequest
  | notFound
  | ok (message : String) (updatedSecretId : String)
deriving DecidableEq

/-- The `data` object the PUT /update/:id handler builds from the body:
each credential field is copied as-is (possibly `undefined`),
`expiry_date` is parsed when `expiryDate` is a non-empty string, and
`updatedAt` is stamped with `new Date()`. -/
def updateDataOf (st : ServerState) (b : UpdateBody) : UpdateData :=
  { type := b.credentialType
    username := b.username
    password := b.password
    card_number := b.cardNumber
    expiry_date := dateCoalesce b.expiryDate
    cvv := b.cvv
    title := b.title
    content := b.content
    updatedAt := JsDate.now st.clock }

/-- Embeds the PUT /update/:id route.  The handler reads only
`req.params.id` and `req.body`; the verified actor context
`req.permission` is never consulted, which is why the parameter is
unused. -/
def updateRoute (st : ServerState) (perm : ActorContext)
    (secretId : String) (b : UpdateBody) : UpdateResult × ServerState :=
  if updateBodyCheck b then
    match updateUserSecret st secretId (updateDataOf st b) with
    | Except.ok st' =>
        (UpdateResult.ok "Credential updated successfully" secretId,
          { st' with clock := st.clock + 1 })
    | Except.error ServiceError.notFoundError => (UpdateResult.notFound, st)
  else
    (UpdateResult.badRequest, st)

/-- Modelled from the spec: `deleteUserSecretById` — absent from the
shown sources.  Per the spec it looks the secret up scoped to the
actor's organization; if absent or already soft-deleted it returns null,
otherwise it sets `deletedAt = now`, persists, and returns the
post-mutation snapshot.  Returns the snapshot together with the updated
secret list. -/
def deleteUserSecretById (st : ServerState) (actorOrgId : String)
    (secretId : String) (now : JsDate) :
    Option (UserSecret × List UserSecret) :=
  match st.secrets.find? (fun s =>
      s.id == secretId && s.organization_id == actorOrgId
        && s.deletedAt.isNone) with
  | none => none
  | some s =>
      some ({ s with deletedAt := some now },
        st.secrets.map (fun t =>
          if t.id == secretId && t.organization_id == actorOrgId
              && t.deletedAt.isNone
          then { t with deletedAt := some now } else t))

/-- Outcome of DELETE /:secretId: the 404 branch for a null service
result, or the handler's 200 payload `{ message, deletedSecret }`. -/
inductive DeleteResult where
  | notFound (message : String)
  | ok (message : String) (deletedSecret : UserSecret)
deriving DecidableEq

/-- Embeds the DELETE /:secretId route: the handler calls the service
with the actor's organization from `req.permission` and maps a null
result to a 404. -/
def deleteRoute (st : ServerState) (perm : ActorContext)
    (secretId : String) : DeleteResult × ServerState :=
  match deleteUserSecretById st perm.orgId secretId (JsDate.now st.clock) with
  | none => (DeleteResult.notFound "Secret not found", st)
  | some (snap, secrets') =>
      (DeleteResult.ok "Secret soft deleted successfully" snap,
        { st with secrets := secrets', clock := st.clock + 1 })

/-- What `validationResult(req)` did inside the middleware's `try`:
either it returned a list of validation errors, or it threw. -/
inductive ValidationOutcome where
  | result (errors : List String)
  | threw
deriving DecidableEq

/-- The argument the middleware passes to `next()`. -/
inductive NextArg where
  | noError
  | validationError
  | unauthorizedRequestError (message : String)
deriving DecidableEq

/-- Embeds `validate` from `validateRequest.ts`: empty error list calls
`next()` bare, a non-empty one passes a `ValidationError`, and a throw
from `validationResult` is caught and passed on as an
`UnauthorizedRequestError`. -/
def validate (o : ValidationOutcome) : NextArg :=
  match o with
  | ValidationOutcome.result errs =>
      if errs.isEmpty then NextArg.noError else NextArg.validationError
  | ValidationOutcome.threw =>
      NextArg.unauthorizedRequestError
        "Unauthenticated requests are not allowed. Try logging in"

/-! Concrete fixtures used by the closed theorems and witnesses below. -/

/-- A stored WEB_LOGIN secret with all optional payload fields empty;
the concrete scenarios below override the fields they care about. -/
def baseSecret : UserSecret :=
  { id := "x"
    user_id := "u"
    organization_id := "o"
    type := "WEB_LOGIN"
    username := none
    password := none
    card_number := none
    expiry_date := none
    cvv := none
    title := none
    content := none
    createdAt := JsDate.now 0
    updatedAt := JsDate.now 0
    deletedAt := none }

/-- A server with no stored secrets. -/
def emptyState : ServerState := { secrets := [], nextUuid := 0, clock := 0 }

/-- A PUT body with every optional field omitted. -/
def emptyUpdateBody : UpdateBody :=
  { credentialType := none
    username := none
    password := none
    cardNumber := none
    expiryDate := none
    cvv := none
    title := none
    content := none
    organizationId := none
    userId := none }

/-- A minimal well-formed POST /create body. -/
def baseCreateBody : CreateBody :=
  { credentialType := "WEB_LOGIN"
    username := none
    password := none
    cardNumber := none
    expiryDate := none
    cvv := none
    title := none
    content := none
    organizationId := "org1"
    userId := "u1" }

/-- Organization-scope scenario: a secret of organization org1. -/
def secOrg1 : UserSecret :=
  { baseSecret with
      id := "s1", user_id := "u1", organization_id := "org1"
      username := some "a", password := some "b" }

/-- State holding only org1's secret. -/
def stOrg1 : ServerState := { secrets := [secOrg1], nextUuid := 5, clock := 10 }

/-- An actor whose context carries organization org2. -/
def actorOrg2 : ActorContext :=
  { type := "user", id := "u2", authMethod := "jwt", orgId := "org2" }

/-- Cross-organization update body: org2's actor changes the password. -/
def bodyCrossOrg : UpdateBody :=
  { emptyUpdateBody with
      password := some "c"
      organizationId := some "org2", userId := some "u2" }

/-- Nonexistent-in-scope scenario for the update route: the only stored
secret belongs to organization alpha. -/
def secAlpha : UserSecret :=
  { baseSecret with
      id := "s5", user_id := "ua", organization_id := "alpha"
      title := some "note", content := some "text" }

/-- State holding only organization alpha's secret. -/
def stAlpha : ServerState := { secrets := [secAlpha], nextUuid := 2, clock := 3 }

/-- An actor from organization beta. -/
def actorBeta : ActorContext :=
  { type := "user", id := "ub", authMethod := "jwt", orgId := "beta" }

/-- Organization beta's update body against alpha's secret. -/
def bodyBeta : UpdateBody :=
  { emptyUpdateBody with
      content := some "overwritten"
      organizationId := some "beta", userId := some "ub" }

/-- CREDIT_CARD create body that also supplies a username. -/
def bodyCardWithUsername : CreateBody :=
  { baseCreateBody with
      credentialType := "CREDIT_CARD"
      username := some "alice"
      cardNumber := some "4111111111111111"
      expiryDate := some "2030-01-01"
      cvv := some "123" }

/-- Create body with a credential type outside the closed enum. -/
def bodyBadType : CreateBody :=
  { baseCreateBody with credentialType := "PASSPORT", username := some "z" }

/-- Well-formed WEB_LOGIN create body. -/
def bodyWebLogin : CreateBody :=
  { baseCreateBody with username := some "alice", password := some "pw" }

/-- Update body omitting organizationId and userId but supplying
credential fields. -/
def bodyNoIds : UpdateBody :=
  { emptyUpdateBody with username := some "x", password := some "y" }

/-- A secret of organization org8, matching `actorOrg8`, so only the
body shape can make the update fail. -/
def secOrg8 : UserSecret :=
  { baseSecret with id := "s8", user_id := "u8", organization_id := "org8" }

/-- State holding org8's secret. -/
def stOrg8 : ServerState := { secrets := [secOrg8], nextUuid := 1, clock := 1 }

/-- An actor from organization org8. -/
def actorOrg8 : ActorContext :=
  { type := "user", id := "u8", authMethod := "jwt", orgId := "org8" }

/-- Partial-update scenario: a secret with username "a", password "b". -/
def secAB : UserSecret :=
  { baseSecret with
      id := "s2", user_id := "u9", organization_id := "org9"
      username := some "a", password := some "b" }

/-- State holding the username/password secret. -/
def stAB : ServerState := { secrets := [secAB], nextUuid := 0, clock := 4 }

/-- An actor from organization org9. -/
def actorOrg9 : ActorContext :=
  { type := "user", id := "u9", authMethod := "jwt", orgId := "org9" }

/-- Update body carrying only a new password (plus the ids the schema
demands). -/
def bodyOnlyPassword : UpdateBody :=
  { emptyUpdateBody with
      password := some "c"
      organizationId := some "org9", userId := some "u9" }

/-- The stored secret after `bodyOnlyPassword` is applied to `secAB`. -/
def secABUpdated : UserSecret :=
  { secAB with password := some "c", updatedAt := JsDate.now 4 }

/-- Type-changing update body: the WEB_LOGIN secret becomes a
SECURE_NOTE with a title, username and password omitted. -/
def bodyToNote : UpdateBody :=
  { emptyUpdateBody with
      credentialType := some "SECURE_NOTE"
      title := some "memo"
      organizationId := some "org9", userId := some "u9" }

/-- Create body whose username is supplied as the empty string. -/
def bodyEmptyStr : CreateBody :=
  { baseCreateBody with username := some "", password := some "pw" }

/-- Soft-delete scenario: an active secret of organization org4. -/
def secOrg4 : UserSecret :=
  { baseSecret with
      id := "d4", user_id := "u4", organization_id := "org4"
      content := some "c4" }

/-- State holding org4's active secret, clock at 7. -/
def stOrg4 : ServerState := { secrets := [secOrg4], nextUuid := 9, clock := 7 }

/-- An actor from organization org4. -/
def actorOrg4 : ActorContext :=
  { type := "user", id := "u4", authMethod := "jwt", orgId := "org4" }

/-- The snapshot the delete route returns for `secOrg4` at clock 7. -/
def snapOrg4 : UserSecret := { secOrg4 with deletedAt := some (JsDate.now 7) }

/-- The state after the successful delete of `secOrg4`. -/
def stOrg4' : ServerState := { secrets := [snapOrg4], nextUuid := 9, clock := 8 }

/-! Theorems settling the claims. -/

/-- Claim C1: every operation was claimed to enforce the actor's
organization scope, the update operation included.  The code does not:
the update handler forwards only the id and the data object — never the
actor's organization — so an actor from org2 updating org1's secret
receives a success response and overwrites org1's data instead of the
claimed not-found outcome. -/
theorem C1_cross_org_update_bypasses_scope :
    actorOrg2.orgId = "org2" ∧
    List.map UserSecret.organization_id stOrg1.secrets = ["org1"] ∧
    (updateRoute stOrg1 actorOrg2 "s1" bodyCrossOrg).1
      = UpdateResult.ok "Credential updated successfully" "s1" ∧
    List.map (fun s => (s.organization_id, s.password))
        (updateRoute stOrg1 actorOrg2 "s1" bodyCrossOrg).2.secrets
      = [("org1", some "c")] := by decide

/-- Claim C5: an update whose id refers to no active secret in the
actor's organization scope was claimed to fail with a 404.  For an id
that is active in a different organization the route instead reports
success and mutates the foreign secret: organization beta's actor
updates organization alpha's secret s5 and gets a 200. -/
theorem C5_update_succeeds_for_id_outside_scope :
    actorBeta.orgId = "beta" ∧
    List.map UserSecret.organization_id stAlpha.secrets = ["alpha"] ∧
    (updateRoute stAlpha actorBeta "s5" bodyBeta).1
      = UpdateResult.ok "Credential updated successfully" "s5" ∧
    List.map UserSecret.content
        (updateRoute stAlpha actorBeta "s5" bodyBeta).2.secrets
      = [some "overwritten"] := by decide

/-- Claim C3, counterexample: a CREDIT_CARD create that also supplies a
username was claimed to store username as null; the handler stores
"alice". -/
theorem C3_counterexample :
    List.map (fun s => (s.type, s.username))
        (createRoute emptyState bodyCardWithUsername).2.secrets
      = [("CREDIT_CARD", some "alice")] := by decide

/-- Claim C3, amended: create appends exactly one record whose payload
fields are the ||-null coalescing of the supplied fields, independent of
the credential-type tag; fields irrelevant to the tag are not nulled
out. -/
theorem C3_create_payload_independent_of_type (st : ServerState)
    (b : CreateBody) (h : createBodyCheck b = true) :
    (createRoute st b).2.secrets = st.secrets ++ [newSecret st b] ∧
    (newSecret st b).type = b.credentialType ∧
    (newSecret st b).username = strCoalesce b.username ∧
    (newSecret st b).password = strCoalesce b.password ∧
    (newSecret st b).card_number = strCoalesce b.cardNumber ∧
    (newSecret st b).expiry_date = dateCoalesce b.expiryDate ∧
    (newSecret st b).cvv = strCoalesce b.cvv ∧
    (newSecret st b).title = strCoalesce b.title ∧
    (newSecret st b).content = strCoalesce b.content := by
  refine ⟨?_, rfl, rfl, rfl, rfl, rfl, rfl, rfl, rfl⟩
  simp [createRoute, h, createUserSecret]

/-- Witness for C3's amended theorem at a concrete state and body. -/
theorem C3_witness :
    (createRoute stOrg8 bodyCardWithUsername).2.secrets
      = stOrg8.secrets ++ [newSecret stOrg8 bodyCardWithUsername] :=
  (C3_create_payload_independent_of_type stOrg8 bodyCardWithUsername
    (by decide)).1

/-- Claim C6: a create whose credentialType lies outside the closed enum
is rejected by the body schema (400) and the state is unchanged — no
secret is persisted. -/
theorem C6_unknown_type_rejected (st : ServerState) (b : CreateBody)
    (h1 : b.credentialType ≠ "WEB_LOGIN")
    (h2 : b.credentialType ≠ "CREDIT_CARD")
    (h3 : b.credentialType ≠ "SECURE_NOTE") :
    createRoute st b = (CreateResult.badRequest, st) := by
  have hc : createBodyCheck b = false := by
    simp [createBodyCheck, credTypeOk, h1, h2, h3]
  simp [createRoute, hc]

/-- Witness for C6 at credentialType "PASSPORT". -/
theorem C6_witness :
    createRoute emptyState bodyBadType = (CreateResult.badRequest, emptyState) :=
  C6_unknown_type_rejected emptyState bodyBadType
    (by decide) (by decide) (by decide)

/-- Claim C7, counterexample: a successful create was claimed to return
the new secret's id; the handler's 200 response carries only the message
and no secretId. -/
theorem C7_counterexample :
    (createRoute emptyState bodyWebLogin).1
      = CreateResult.ok "Credential created successfully" none := by decide

/-- Claim C7, amended: every successful create responds 200 with only
the message; the secretId field that the response schema permits is
never populated. -/
theorem C7_create_response_has_no_secret_id (st : ServerState)
    (b : CreateBody) (h : createBodyCheck b = true) :
    (createRoute st b).1 = CreateResult.ok "Credential created successfully" none := by
  simp [createRoute, h]

/-- Witness for C7's amended theorem at a concrete state and body. -/
theorem C7_witness :
    (createRoute stAlpha bodyWebLogin).1
      = CreateResult.ok "Credential created successfully" none :=
  C7_create_response_has_no_secret_id stAlpha bodyWebLogin (by decide)

/-- Claim C9: in create, each of the seven optional payload fields is
stored through the ||-null coalescing, so an empty string is stored as
null exactly like an omitted field, while a non-empty string is stored
as supplied (expiryDate parsed into a date of that string). -/
theorem C9_empty_string_stored_as_null (st : ServerState) (b : CreateBody)
    (v : String) (hv : v ≠ "") :
    (newSecret st b).username = strCoalesce b.username ∧
    (newSecret st b).password = strCoalesce b.password ∧
    (newSecret st b).card_number = strCoalesce b.cardNumber ∧
    (newSecret st b).expiry_date = dateCoalesce b.expiryDate ∧
    (newSecret st b).cvv = strCoalesce b.cvv ∧
    (newSecret st b).title = strCoalesce b.title ∧
    (newSecret st b).content = strCoalesce b.content ∧
    strCoalesce (some "") = none ∧
    strCoalesce none = none ∧
    strCoalesce (some v) = some v ∧
    dateCoalesce (some "") = none ∧
    dateCoalesce none = none ∧
    dateCoalesce (some v) = some (JsDate.parse v) := by
  refine ⟨rfl, rfl, rfl, rfl, rfl, rfl, rfl, by simp [strCoalesce], rfl,
    by simp [strCoalesce, hv], by simp [dateCoalesce], rfl,
    by simp [dateCoalesce, hv]⟩

/-- Witness for C9: an empty-string username is stored as null. -/
theorem C9_witness :
    (newSecret emptyState bodyEmptyStr).username = none := by
  have h := C9_empty_string_stored_as_null emptyState bodyEmptyStr "pw"
    (by decide)
  rw [h.1]
  decide

/-- Claim C10: the middleware calls next() with no error exactly when
the validation result is an empty error list; a non-empty list yields a
ValidationError, and a throw from validationResult yields an
UnauthorizedRequestError. -/
theorem C10_validate_outcomes (o : ValidationOutcome) :
    (validate o = NextArg.noError ↔ o = ValidationOutcome.result []) ∧
    (∀ errs, o = ValidationOutcome.result errs → errs ≠ [] →
      validate o = NextArg.validationError) ∧
    (o = ValidationOutcome.threw →
      validate o = NextArg.unauthorizedRequestError
        "Unauthenticated requests are not allowed. Try logging in") := by
  refine ⟨?_, ?_, ?_⟩
  · cases o with
    | result errs =>
      cases errs with
      | nil => simp [validate]
      | cons a l => simp [validate]
    | threw => simp [validate]
  · rintro errs rfl hne
    have hne' : errs.isEmpty = false := by
      cases errs with
      | nil => exact absurd rfl hne
      | cons a l => rfl
    simp [validate, hne']
  · rintro rfl
    rfl

/-- Witness for C10: a non-empty error list yields a ValidationError. -/
theorem C10_witness :
    validate (ValidationOutcome.result ["bad"]) = NextArg.validationError :=
  (C10_validate_outcomes (ValidationOutcome.result ["bad"])).2.1
    ["bad"] rfl (by decide)

/-- Every secret in the state after an update is either an untouched
pre-existing secret or the result of applying the handler's data object
(partial write plus type-change renormalization) to a pre-existing
secret. -/
theorem mem_secrets_of_updateRoute {st : ServerState} {perm : ActorContext}
    {sid : String} {b : UpdateBody} {s' : UserSecret}
    (h : s' ∈ (updateRoute st perm sid b).2.secrets) :
    s' ∈ st.secrets ∨
      ∃ s, s ∈ st.secrets ∧ s' = applyUpdate s (updateDataOf st b) := by
  by_cases hc : updateBodyCheck b
  · by_cases hany : st.secrets.any (fun s => s.id == sid && s.deletedAt.isNone)
    · simp only [updateRoute, hc, if_true, updateUserSecret, hany] at h
      obtain ⟨t, ht, hft⟩ := List.mem_map.1 h
      by_cases hcond : (t.id == sid && t.deletedAt.isNone) = true
      · right
        refine ⟨t, ht, ?_⟩
        rw [← hft, if_pos hcond]
      · left
        rw [← hft, if_neg hcond]
        exact ht
    · simp only [updateRoute, hc, if_true, updateUserSecret, hany] at h
      exact Or.inl h
  · simp only [updateRoute, hc, if_false] at h
    exact Or.inl h

/-- The update write never touches the id or the ownership keys, with or
without a type change: neither the data object (which has no keys for
them) nor the normalizer's clearing step reaches those columns. -/
theorem applyUpdate_preserves_identity (s : UserSecret) (d : UpdateData) :
    (applyUpdate s d).id = s.id ∧
    (applyUpdate s d).user_id = s.user_id ∧
    (applyUpdate s d).organization_id = s.organization_id := by
  rcases hdt : d.type with _ | t
  · simp [applyUpdate, hdt, applyUpdateData]
  · by_cases hts : (t == s.type) = true
    · simp [applyUpdate, hdt, hts, applyUpdateData]
    · simp [applyUpdate, hdt, hts, renormalize, applyUpdateData]

/-- Claim C2, counterexample: every omitted field was claimed to keep
its stored value on every update.  A type-changing update refutes this:
the stored WEB_LOGIN secret has username "a", the SECURE_NOTE update
omits username, yet afterwards the username is null — the spec's
type-change renormalization clears the stale field. -/
theorem C2_counterexample :
    bodyToNote.username = none ∧
    List.map UserSecret.username stAB.secrets = [some "a"] ∧
    List.map UserSecret.username
        (updateRoute stAB actorOrg9 "s2" bodyToNote).2.secrets = [none] := by
  decide

/-- Claim C2, amended: for every update that does not change the stored
credential type (credentialType omitted or equal to the stored one),
only fields defined in the partial payload are written and every
omitted field keeps its stored value; and on every update — type change
or not — the id and the ownership keys userId and organizationId are
unchanged. -/
theorem C2_update_preserves_omitted_and_ownership (st : ServerState)
    (perm : ActorContext) (sid : String) (b : UpdateBody) (s' : UserSecret)
    (h : s' ∈ (updateRoute st perm sid b).2.secrets) :
    ∃ s, s ∈ st.secrets ∧
      s'.id = s.id ∧ s'.user_id = s.user_id ∧
      s'.organization_id = s.organization_id ∧
      ((b.credentialType = none ∨ b.credentialType = some s.type) →
        (s'.type = s.type ∧
         (b.username = none → s'.username = s.username) ∧
         (b.password = none → s'.password = s.password) ∧
         (b.cardNumber = none → s'.card_number = s.card_number) ∧
         (b.expiryDate = none → s'.expiry_date = s.expiry_date) ∧
         (b.cvv = none → s'.cvv = s.cvv) ∧
         (b.title = none → s'.title = s.title) ∧
         (b.content = none → s'.content = s.content))) := by
  rcases mem_secrets_of_updateRoute h with hmem | ⟨s, hs, rfl⟩
  · exact ⟨s', hmem, rfl, rfl, rfl, fun _ => ⟨rfl, fun _ => rfl, fun _ => rfl,
      fun _ => rfl, fun _ => rfl, fun _ => rfl, fun _ => rfl, fun _ => rfl⟩⟩
  · obtain ⟨hid, huid, horg⟩ :=
      applyUpdate_preserves_identity s (updateDataOf st b)
    refine ⟨s, hs, hid, huid, horg, ?_⟩
    intro hty
    have hsame : applyUpdate s (updateDataOf st b)
        = applyUpdateData s (updateDataOf st b) := by
      rcases hty with hn | hsome
      · simp [applyUpdate, updateDataOf, hn]
      · simp [applyUpdate, updateDataOf, hsome]
    rw [hsame]
    refine ⟨?_, ?_, ?_, ?_, ?_, ?_, ?_, ?_⟩
    · rcases hty with hn | hsome
      · simp [applyUpdateData, updateDataOf, hn]
      · simp [applyUpdateData, updateDataOf, hsome]
    all_goals
      intro hb
      simp [applyUpdateData, updateDataOf, overwrite, dateCoalesce, hb]

/-- Witness for C2's amended theorem: the secret {username "a",
password "b"} updated with only {password "c"} (no type change) comes
from the stored secret with username kept and ownership unchanged. -/
theorem C2_witness :
    ∃ s, s ∈ stAB.secrets ∧
      secABUpdated.id = s.id ∧ secABUpdated.user_id = s.user_id ∧
      secABUpdated.organization_id = s.organization_id ∧
      ((bodyOnlyPassword.credentialType = none ∨
          bodyOnlyPassword.credentialType = some s.type) →
        (secABUpdated.type = s.type ∧
         (bodyOnlyPassword.username = none →
           secABUpdated.username = s.username) ∧
         (bodyOnlyPassword.password = none →
           secABUpdated.password = s.password) ∧
         (bodyOnlyPassword.cardNumber = none →
           secABUpdated.card_number = s.card_number) ∧
         (bodyOnlyPassword.expiryDate = none →
           secABUpdated.expiry_date = s.expiry_date) ∧
         (bodyOnlyPassword.cvv = none → secABUpdated.cvv = s.cvv) ∧
         (bodyOnlyPassword.title = none → secABUpdated.title = s.title) ∧
         (bodyOnlyPassword.content = none →
           secABUpdated.content = s.content))) :=
  C2_update_preserves_omitted_and_ownership stAB actorOrg9 "s2"
    bodyOnlyPassword secABUpdated (by decide)

/-- Claim C4: a successful delete stamps deletedAt with the current
time and returns the post-mutation snapshot; afterwards no active
matching secret remains, and any delete against a state with no active
matching secret (absent or already soft-deleted) returns the 404
branch unchanged — so the second and every later delete of the same id
returns null. -/
theorem C4_soft_delete_idempotent (st : ServerState) (perm : ActorContext)
    (sid : String) (snap : UserSecret) (st' : ServerState)
    (h : deleteRoute st perm sid
        = (DeleteResult.ok "Secret soft deleted successfully" snap, st')) :
    snap.deletedAt = some (JsDate.now st.clock) ∧
    snap ∈ st'.secrets ∧
    (∀ t ∈ st'.secrets, t.id = sid → t.organization_id = perm.orgId →
      t.deletedAt ≠ none) ∧
    (∀ st2 : ServerState,
      (∀ t ∈ st2.secrets, t.id = sid → t.organization_id = perm.orgId →
        t.deletedAt ≠ none) →
      deleteRoute st2 perm sid
        = (DeleteResult.notFound "Secret not found", st2)) := by
  have hgen : ∀ st2 : ServerState,
      (∀ t ∈ st2.secrets, t.id = sid → t.organization_id = perm.orgId →
        t.deletedAt ≠ none) →
      deleteRoute st2 perm sid
        = (DeleteResult.notFound "Secret not found", st2) := by
    intro st2 hno
    have hfind : st2.secrets.find? (fun s =>
        s.id == sid && s.organization_id == perm.orgId
          && s.deletedAt.isNone) = none := by
      rw [List.find?_eq_none]
      intro x hx hpx
      simp only [Bool.and_eq_true, beq_iff_eq,
        Option.isNone_iff_eq_none] at hpx
      exact hno x hx hpx.1.1 hpx.1.2 hpx.2
    simp [deleteRoute, deleteUserSecretById, hfind]
  cases hfind : st.secrets.find? (fun s =>
      s.id == sid && s.organization_id == perm.orgId
        && s.deletedAt.isNone) with
  | none =>
    simp [deleteRoute, deleteUserSecretById, hfind] at h
  | some s =>
    have hmem := List.mem_of_find?_eq_some hfind
    have hps := List.find?_some hfind
    simp only [Bool.and_eq_true, beq_iff_eq, Option.isNone_iff_eq_none] at hps
    simp only [deleteRoute, deleteUserSecretById, hfind, Prod.mk.injEq,
      DeleteResult.ok.injEq, true_and] at h
    obtain ⟨hsnap, hst'⟩ := h
    subst hsnap
    subst hst'
    refine ⟨rfl, ?_, ?_, hgen⟩
    · refine List.mem_map.2 ⟨s, hmem, ?_⟩
      simp [hps.1.1, hps.1.2, hps.2]
    · intro t' ht' h1 h2
      obtain ⟨t, ht, rfl⟩ := List.mem_map.1 ht'
      by_cases hcond : (t.id == sid && t.organization_id == perm.orgId
          && t.deletedAt.isNone) = true
      · rw [if_pos hcond]
        simp
      · rw [if_neg hcond] at h1 h2 ⊢
        simp only [Bool.and_eq_true, beq_iff_eq,
          Option.isNone_iff_eq_none, not_and] at hcond
        exact hcond ⟨h1, h2⟩
  
/-- Witness for C4 at the org4 scenario. -/
theorem C4_witness :
    snapOrg4.deletedAt = some (JsDate.now stOrg4.clock) ∧
    snapOrg4 ∈ stOrg4'.secrets ∧
    (∀ t ∈ stOrg4'.secrets, t.id = "d4" →
      t.organization_id = actorOrg4.orgId → t.deletedAt ≠ none) ∧
    (∀ st2 : ServerState,
      (∀ t ∈ st2.secrets, t.id = "d4" →
        t.organization_id = actorOrg4.orgId → t.deletedAt ≠ none) →
      deleteRoute st2 actorOrg4 "d4"
        = (DeleteResult.notFound "Secret not found", st2)) :=
  C4_soft_delete_idempotent stOrg4 actorOrg4 "d4" snapOrg4 stOrg4'
    (by decide)

/-- Claim C8, counterexample: an update body omitting organizationId
and userId was claimed to be accepted; the body schema rejects it as a
shape error even when the target secret exists in the actor's scope. -/
theorem C8_counterexample :
    bodyNoIds.organizationId = none ∧ bodyNoIds.userId = none ∧
    bodyNoIds.username = some "x" ∧
    updateRoute stOrg8 actorOrg8 "s8" bodyNoIds
      = (UpdateResult.badRequest, stOrg8) := by decide

/-- Claim C8, amended: the credential fields of the update body are
optional, but organizationId and userId are required — omitting either
is a shape error leaving the state untouched, while a body carrying both
(and a valid credentialType when present) passes the schema. -/
theorem C8_update_body_requires_ids (st : ServerState) (perm : ActorContext)
    (sid : String) (b : UpdateBody) :
    ((b.organizationId = none ∨ b.userId = none) →
      updateRoute st perm sid b = (UpdateResult.badRequest, st)) ∧
    (b.organizationId ≠ none → b.userId ≠ none →
      (∀ t, b.credentialType = some t → credTypeOk t = true) →
      (updateRoute st perm sid b).1 ≠ UpdateResult.badRequest) := by
  constructor
  · intro hid
    have hc : updateBodyCheck b = false := by
      rcases hid with h | h <;> simp [updateBodyCheck, h]
    simp [updateRoute, hc]
  · intro ho hu hct
    have h1 : b.organizationId.isSome = true := Option.isSome_iff_ne_none.mpr ho
    have h2 : b.userId.isSome = true := Option.isSome_iff_ne_none.mpr hu
    have h3 : (match b.credentialType with
        | none => true
        | some t => credTypeOk t) = true := by
      cases hbt : b.credentialType with
      | none => rfl
      | some t => exact hct t hbt
    have hc : updateBodyCheck b = true := by
      rw [updateBodyCheck, h3, h1, h2]
      rfl
    rw [updateRoute, if_pos hc]
    rcases hres : updateUserSecret st sid (updateDataOf st b) with st'' | e
    · simp
    · cases e
      simp

/-- Witness for C8's amended theorem: the all-omitted body is rejected
with the state unchanged. -/
theorem C8_witness :
    updateRoute emptyState actorOrg9 "zz" emptyUpdateBody
      = (UpdateResult.badRequest, emptyState) :=
  (C8_update_body_requires_ids emptyState actorOrg9 "zz" emptyUpdateBody).1
    (Or.inl rfl)
